import Mathlib

/-!
Verification of the deep-research CLI pipeline (src/main.py) against its
natural-language specification.

The program is a linear pipeline: Triage → (conditional) Clarification →
Instruction expansion → Research → Presentation / Persistence.  We embed it
shallowly: every observable side effect (a console print, a backend agent
call, a directory creation, a file write) becomes an `Event` in a trace;
Python attribute probing (`hasattr` / `getattr`) becomes explicit `Attr` /
`Option` values; Python exceptions become `Except String`.
-/

/-- Python attribute state for duck-typed objects: the attribute may be
absent (so `hasattr` is false), present but `None`, or present with a
value. -/
inductive Attr (α : Type) where
  | absent
  | pyNone
  | val (a : α)
deriving DecidableEq, Repr

/-- Models Python `hasattr obj attr`. -/
def Attr.hasattr : Attr α → Bool
  | .absent => false
  | _ => true

/-- Python truthiness of a list-valued attribute: `None` and `[]` are falsy. -/
def Attr.truthy : Attr (List α) → Bool
  | .val cs => !cs.isEmpty
  | _ => false

/-- Models Python `xs or []` applied to a list-valued attribute. -/
def Attr.orEmpty : Attr (List α) → List α
  | .val cs => cs
  | _ => []

/-- Models Python `str.strip()`: remove leading and trailing whitespace.
Defined structurally so that it reduces in the kernel. -/
def py_strip (s : String) : String :=
  String.mk (((s.data.dropWhile Char.isWhitespace).reverse.dropWhile Char.isWhitespace).reverse)

/-- Models Python `str.lower()`. -/
def py_lower (s : String) : String :=
  String.mk (s.data.map Char.toLower)

/-- Models Python slicing `s[:n]`. -/
def py_take (s : String) (n : Nat) : String :=
  String.mk (s.data.take n)

/-- One element of `result.citations` in the source: a duck-typed object
whose `title` and `url` attributes may each be absent. -/
structure CitationObj where
  title : Option String
  url : Option String
deriving DecidableEq, Repr

/-- One element of `result.content.annotations` in the source; `anns` below
models the Python attribute spelled `annotations`.  All three attributes are
probed with `getattr` in the source, so each may be absent. -/
structure AnnotationObj where
  type : Option String
  title : Option String
  url : Option String
deriving DecidableEq, Repr

/-- The `result.content` object: its string rendering `text` (what
`print(result.content)` and the report file show) and the attribute spelled
`annotations` in Python (field `anns` here). -/
structure ContentObj where
  text : String
  anns : Attr (List AnnotationObj)
deriving DecidableEq, Repr

/-- A research-stage result: the `citations` attribute (may be absent,
`None`, or a list) and the `content` object. -/
structure ResearchResult where
  citations : Attr (List CitationObj)
  content : ContentObj
deriving DecidableEq, Repr

/-- Evaluating `(c.title, c.url)` on one citation object, as the top-level
branch of `show_citations` does: `c.url` is guarded by `hasattr`, but
`c.title` is read directly, so a missing title raises `AttributeError`. -/
def pairTop (c : CitationObj) : Except String (String × String) :=
  match c.title, c.url with
  | some t, some u => .ok (t, u)
  | none, _ => .error "AttributeError: title"
  | _, none => .error "AttributeError: url"

/-- The list comprehension of the top-level branch after its `hasattr`
filter: evaluate `(c.title, c.url)` left to right, stopping at the first
raised `AttributeError`. -/
def mapTop : List CitationObj → Except String (List (String × String))
  | [] => .ok []
  | c :: cs =>
    match pairTop c with
    | .error e => .error e
    | .ok p =>
      match mapTop cs with
      | .error e => .error e
      | .ok ps => .ok (p :: ps)

/-- Citation extraction performed by `show_citations` (src/main.py lines
95-100): first the top-level `result.citations` branch (guarded by
`hasattr` and truthiness), else the nested `result.content.annotations`
branch filtering entries whose `type` is `url_citation` and defaulting a
missing title to `"Source"` and a missing url to `""`, else no citations. -/
def extract_citations (result : ResearchResult) : Except String (List (String × String)) :=
  if result.citations.hasattr && result.citations.truthy then
    mapTop ((result.citations.orEmpty).filter (fun c => c.url.isSome))
  else if (result.content.anns).hasattr then
    .ok ((((result.content.anns).orEmpty).filter
          (fun a => a.type == some "url_citation")).map
          (fun a => (a.title.getD "Source", a.url.getD "")))
  else
    .ok []

/-- The lines printed by `show_citations` (src/main.py lines 102-106): the
sources header, one line per citation, and the completion message when no
citations were found. -/
def show_citations (result : ResearchResult) : Except String (List String) :=
  match extract_citations result with
  | .error e => .error e
  | .ok citations =>
    .ok ([ "\n📖 SOURCES (" ++ toString citations.length ++ " found):" ]
         ++ citations.map (fun p => "- " ++ p.1 ++ ": " ++ p.2)
         ++ (if citations.isEmpty then ["- Research completed with web search capabilities"] else []))

/-- Structured output of the triage agent (`class TriageResponse`). -/
structure TriageResponse where
  needs_clarification : Bool
deriving DecidableEq, Repr

/-- Structured output of the clarify agent (`class ClarifyResponse`). -/
structure ClarifyResponse where
  questions : List String
deriving DecidableEq, Repr

/-- Structured output of the instruction agent (`class InstructionResponse`). -/
structure InstructionResponse where
  instructions : String
deriving DecidableEq, Repr

/-- An observable side effect of the program: a console print, a backend
agent call (named as in the `agents` dict), a directory creation, or a file
write. -/
inductive Event where
  | print (s : String)
  | call (agent : String) (input : String)
  | mkdir (dir : String)
  | write (path : String) (content : String)
deriving DecidableEq, Repr

/-- The external language-model backend: one fallible call per agent role,
each consuming the text payload the program sends it. -/
structure Backend where
  triage : String → Except String TriageResponse
  clarify : String → Except String ClarifyResponse
  instruction : String → Except String InstructionResponse
  research : String → Except String ResearchResult

/-- The `question: answer` pairs recorded by `handle_clarification`
(src/main.py lines 118-123): each answer is stripped and, when non-empty,
recorded as `"<question>: <answer>"` in question order. -/
def collect_answers (questions answers : List String) : List String :=
  (questions.zip answers).filterMap
    (fun qa => if py_strip qa.2 = "" then none else some (qa.1 ++ ": " ++ py_strip qa.2))

/-- The enriched query returned by `handle_clarification` (src/main.py lines
114-126): the original query when there are no questions or no recorded
answers, otherwise the query, the literal `"\n\nContext:\n"` separator, and
the newline-joined pairs. -/
def enrich_query (query : String) (questions answers : List String) : String :=
  if questions.isEmpty then query
  else if (collect_answers questions answers).isEmpty then query
  else query ++ "\n\nContext:\n" ++ String.intercalate "\n" (collect_answers questions answers)

/-- The interactive per-question console events of `handle_clarification`:
print the numbered question, prompt `"> "`, and echo the first 50
characters of a non-empty stripped answer. -/
def question_events : Nat → List (String × String) → List Event
  | _, [] => []
  | i, (q, a) :: rest =>
      [Event.print ("\n" ++ toString i ++ ". " ++ q), Event.print "> "]
      ++ (if py_strip a = "" then [] else [Event.print ("   ✓ " ++ (py_take (py_strip a) 50) ++ "...")])
      ++ question_events (i + 1) rest

/-- `handle_clarification` (src/main.py lines 108-126): call the clarify
agent, collect an answer for each question, and return the enriched query,
together with the trace of events it produces.  `answers` supplies the
user's line of input for each question in order. -/
def handle_clarification (b : Backend) (answers : List String) (query : String) :
    List Event × Except String String :=
  let ev0 := [Event.print "📝 Getting clarifications...", Event.call "clarify" query]
  match b.clarify query with
  | .error e => (ev0, .error e)
  | .ok cr =>
    if cr.questions.isEmpty then (ev0, .ok query)
    else
      let pairs := collect_answers cr.questions answers
      (ev0 ++ [Event.print "\n📋 Please provide context:"]
           ++ question_events 1 (cr.questions.zip answers)
           ++ [Event.print ("✅ Got " ++ toString pairs.length ++ " clarifications\n")],
       .ok (enrich_query query cr.questions answers))

/-- `research_pipeline` (src/main.py lines 128-148): triage, conditional
clarification, instruction expansion, research; returns the event trace and
either the research result or the first propagated failure. -/
def research_pipeline (b : Backend) (answers : List String) (query : String) :
    List Event × Except String ResearchResult :=
  let ev0 := [Event.print ("🔬 Deep Research: " ++ query ++ "\n"),
              Event.print "🔍 Analyzing query...", Event.call "triage" query]
  match b.triage query with
  | .error e => (ev0, .error e)
  | .ok t =>
    let step := if t.needs_clarification
                then handle_clarification b answers query
                else ([], .ok query)
    match step.2 with
    | .error e => (ev0 ++ step.1, .error e)
    | .ok query2 =>
      let ev2 := [Event.print "📋 Creating research instructions...",
                  Event.call "instruction" query2]
      match b.instruction query2 with
      | .error e => (ev0 ++ step.1 ++ ev2, .error e)
      | .ok ir =>
        let ev3 := [Event.call "research" ir.instructions]
        match b.research ir.instructions with
        | .error e => (ev0 ++ step.1 ++ ev2 ++ ev3, .error e)
        | .ok r => (ev0 ++ step.1 ++ ev2 ++ ev3, .ok r)

/-- The fixed `"="*50` separator line printed around the results block. -/
def sep50 : String := String.mk (List.replicate 50 (Char.ofNat 61))

/-- The startup banner and the research-topic prompt (src/main.py lines
152-154). -/
def banner_events : List Event :=
  [Event.print "🔬 Agno Deep Research\nUsing o3-deep-research-2025-06-26\n",
   Event.print "🤔 Research topic? "]

/-- The report filename for a given `strftime` timestamp string. -/
def report_filename (now : String) : String :=
  "reports/report_" ++ now ++ ".md"

/-- The markdown written to the report file (src/main.py line 173). -/
def report_content (query : String) (r : ResearchResult) : String :=
  "# Research Results\n\n**Query:** " ++ query ++ "\n\n" ++ r.content.text

/-- `main` (src/main.py lines 150-177) as a trace of observable events.
`fs` models the filesystem's response to the report write; `queryInput`,
`answers` and `saveInput` are the user's console inputs; `now` is the
formatted timestamp `datetime.now().strftime("%Y%m%d_%H%M")`. -/
def main_events (b : Backend) (fs : String → String → Except String Unit)
    (queryInput : String) (answers : List String) (saveInput : String) (now : String) :
    List Event :=
  let query := py_strip queryInput
  if query.isEmpty then banner_events
  else
    let pr := research_pipeline b answers query
    match pr.2 with
    | .error e => banner_events ++ pr.1 ++ [Event.print ("❌ Error: " ++ e)]
    | .ok result =>
      let resultsEv := [Event.print ("\n" ++ sep50), Event.print "📋 RESULTS",
                        Event.print sep50, Event.print result.content.text,
                        Event.print sep50]
      match show_citations result with
      | .error e => banner_events ++ pr.1 ++ resultsEv ++ [Event.print ("❌ Error: " ++ e)]
      | .ok citLines =>
        let promptEv := [Event.print "\n💾 Save to file? (Y/n): "]
        let saveEv :=
          if py_lower (py_strip saveInput) ≠ "n" then
            let filename := report_filename now
            let content := report_content query result
            match fs filename content with
            | .error e => [Event.mkdir "reports", Event.write filename content,
                           Event.print ("❌ Error: " ++ e)]
            | .ok _ => [Event.mkdir "reports", Event.write filename content,
                        Event.print ("✅ Saved to " ++ filename)]
          else []
        banner_events ++ pr.1 ++ resultsEv ++ citLines.map Event.print ++ promptEv ++ saveEv

/-- A wall-clock time, to the precision the program can observe. -/
structure DateTime where
  year : Nat
  month : Nat
  day : Nat
  hour : Nat
  minute : Nat
  second : Nat
deriving DecidableEq, Repr

/-- Zero-padded two-digit rendering, as `strftime` `%m`, `%d`, `%H`, `%M`. -/
def pad2 (n : Nat) : String :=
  if n < 10 then "0" ++ toString n else toString n

/-- Zero-padded four-digit rendering, as `strftime` `%Y`. -/
def pad4 (n : Nat) : String :=
  if n < 10 then "000" ++ toString n
  else if n < 100 then "00" ++ toString n
  else if n < 1000 then "0" ++ toString n
  else toString n

/-- `datetime.now().strftime("%Y%m%d_%H%M")` (src/main.py line 171): a
minute-resolution timestamp; the seconds field is not rendered. -/
def strftime_ymd_hm (t : DateTime) : String :=
  pad4 t.year ++ pad2 t.month ++ pad2 t.day ++ "_" ++ pad2 t.hour ++ pad2 t.minute

/-- The file-write events of a trace. -/
def file_writes (tr : List Event) : List Event :=
  tr.filter (fun ev => match ev with | Event.write _ _ => true | _ => false)

/-- A minimal successful research result used to instantiate theorems on a
concrete run. -/
def stub_result : ResearchResult := ⟨Attr.absent, ⟨"body", Attr.absent⟩⟩

/-- A backend whose triage verdict is `false` and whose stages all succeed,
used to instantiate theorems on a concrete run. -/
def stub_backend : Backend where
  triage := fun _ => .ok ⟨false⟩
  clarify := fun _ => .ok ⟨[]⟩
  instruction := fun _ => .ok ⟨"instr"⟩
  research := fun _ => .ok stub_result

/-- A backend whose triage verdict is `true`, with one clarifying question. -/
def stub_backend_clarify : Backend where
  triage := fun _ => .ok ⟨true⟩
  clarify := fun _ => .ok ⟨["Which region?"]⟩
  instruction := fun _ => .ok ⟨"instr"⟩
  research := fun _ => .ok stub_result

/-- A backend whose research stage fails. -/
def stub_backend_fail : Backend where
  triage := fun _ => .ok ⟨false⟩
  clarify := fun _ => .ok ⟨[]⟩
  instruction := fun _ => .ok ⟨"instr"⟩
  research := fun _ => .error "boom"

/-- A filesystem on which every write succeeds. -/
def fs_ok : String → String → Except String Unit := fun _ _ => .ok ()

/-- A filesystem on which every write fails with a fixed message. -/
def fs_fail : String → String → Except String Unit := fun _ _ => .error "disk full"

/-- Well-formedness of the citation source, as assumed by the spec: every
top-level citation object carrying a `url` attribute also carries a `title`
attribute (the top-level branch reads `c.title` unguarded). -/
def WellFormedCitations (r : ResearchResult) : Prop :=
  ∀ c ∈ r.citations.orEmpty, c.url.isSome → c.title.isSome

-- Sanity checks on concrete inputs.
example :
    extract_citations ⟨Attr.val [⟨some "T", some "U"⟩, ⟨some "X", none⟩], ⟨"b", Attr.absent⟩⟩
      = .ok [("T", "U")] := rfl

example :
    extract_citations ⟨Attr.absent, ⟨"b", Attr.val [⟨some "url_citation", none, none⟩, ⟨some "other", some "t", some "u"⟩]⟩⟩
      = .ok [("Source", "")] := rfl

example :
    extract_citations ⟨Attr.val [], ⟨"b", Attr.val [⟨some "url_citation", some "t", some "u"⟩]⟩⟩
      = .ok [("t", "u")] := rfl

example :
    show_citations ⟨Attr.absent, ⟨"b", Attr.absent⟩⟩
      = .ok ["\n📖 SOURCES (0 found):", "- Research completed with web search capabilities"] := rfl

lemma isEmpty_false_of_ne (s : String) (h : s ≠ "") : s.isEmpty = false := by
  rw [Bool.eq_false_iff]
  intro hc
  exact h ((String.isEmpty_iff s).mp hc)

lemma mapTop_ok (cs : List CitationObj) (h : ∀ c ∈ cs, c.title.isSome ∧ c.url.isSome) :
    mapTop cs = .ok (cs.map (fun c => (c.title.getD "", c.url.getD ""))) := by
  induction cs with
  | nil => rfl
  | cons c rest ih =>
    have hc := h c (List.mem_cons_self c rest)
    obtain ⟨t, ht⟩ := Option.isSome_iff_exists.mp hc.1
    obtain ⟨u, hu⟩ := Option.isSome_iff_exists.mp hc.2
    have ih' := ih (fun c' hc' => h c' (List.mem_cons_of_mem _ hc'))
    simp [mapTop, pairTop, ht, hu, ih']

lemma mapTop_error (cs : List CitationObj) (c : CitationObj) (hmem : c ∈ cs)
    (hnone : c.title = none) : ∃ e, mapTop cs = .error e := by
  induction cs with
  | nil => simp at hmem
  | cons c0 rest ih =>
    rcases List.mem_cons.mp hmem with rfl | hmem'
    · exact ⟨"AttributeError: title",
        by cases hurl : c.url <;> simp [mapTop, pairTop, hnone, hurl]⟩
    · rcases ih hmem' with ⟨e, he⟩
      cases hp : pairTop c0 with
      | error e' => exact ⟨e', by simp [mapTop, hp]⟩
      | ok p => exact ⟨e, by simp [mapTop, hp, he]⟩

lemma extract_fallback (rc : Attr (List CitationObj)) (rct : ContentObj)
    (hcond : (rc.hasattr && rc.truthy) = false) :
    extract_citations ⟨rc, rct⟩
      = .ok ((((rct.anns).orEmpty).filter (fun a => a.type == some "url_citation")).map
            (fun a => (a.title.getD "Source", a.url.getD ""))) := by
  unfold extract_citations
  rw [hcond]
  cases ha : rct.anns <;> simp [Attr.hasattr, Attr.orEmpty, ha]

lemma extract_top (cs : List CitationObj) (rct : ContentObj) (hemp : cs.isEmpty = false) :
    extract_citations ⟨Attr.val cs, rct⟩ = mapTop (cs.filter (fun c => c.url.isSome)) := by
  unfold extract_citations
  simp [Attr.hasattr, Attr.truthy, hemp, Attr.orEmpty]

/-- C1: citation extraction is total on every well-formed or empty citation
source: it returns a (possibly empty) list of (title, url) pairs, whenever
the fallback branch is used a missing title defaults to `"Source"` and a
missing url to `""`, and the printed lines report completion rather than an
error when no citations are found. -/
theorem citation_extraction_total (r : ResearchResult) (h : WellFormedCitations r) :
    ∃ pairs, extract_citations r = .ok pairs
      ∧ show_citations r
          = .ok ([ "\n📖 SOURCES (" ++ toString pairs.length ++ " found):" ]
                 ++ pairs.map (fun p => "- " ++ p.1 ++ ": " ++ p.2)
                 ++ (if pairs.isEmpty then ["- Research completed with web search capabilities"] else []))
      ∧ ((r.citations.hasattr && r.citations.truthy) = false →
          pairs = (((r.content.anns).orEmpty).filter (fun a => a.type == some "url_citation")).map
                  (fun a => (a.title.getD "Source", a.url.getD ""))) := by
  obtain ⟨rc, rct⟩ := r
  by_cases hcond : (rc.hasattr && rc.truthy) = true
  · cases hc : rc with
    | absent => rw [hc] at hcond; simp [Attr.hasattr] at hcond
    | pyNone => rw [hc] at hcond; simp [Attr.hasattr, Attr.truthy] at hcond
    | val cs =>
      have hemp : cs.isEmpty = false := by
        rw [hc] at hcond
        simpa [Attr.hasattr, Attr.truthy] using hcond
      subst hc
      have hall : ∀ c ∈ cs.filter (fun c => c.url.isSome), c.title.isSome ∧ c.url.isSome := by
        intro c hcf
        have hm := List.mem_filter.mp hcf
        exact ⟨h c (by simpa [Attr.orEmpty] using hm.1) hm.2, hm.2⟩
      have he := (extract_top cs rct hemp).trans (mapTop_ok _ hall)
      refine ⟨_, he, by simp [show_citations, he], ?_⟩
      intro hcontra
      simp [Attr.hasattr, Attr.truthy, hemp] at hcontra
  · have hcond' : (rc.hasattr && rc.truthy) = false := by
      rwa [Bool.not_eq_true] at hcond
    have he := extract_fallback rc rct hcond'
    exact ⟨_, he, by simp [show_citations, he], fun _ => rfl⟩

/-- Witness for C1 on a concrete well-formed result. -/
theorem citation_extraction_total_witness :
    ∃ pairs, extract_citations ⟨Attr.val [⟨some "T", some "U"⟩], ⟨"b", Attr.absent⟩⟩ = .ok pairs
      ∧ show_citations ⟨Attr.val [⟨some "T", some "U"⟩], ⟨"b", Attr.absent⟩⟩
          = .ok ([ "\n📖 SOURCES (" ++ toString pairs.length ++ " found):" ]
                 ++ pairs.map (fun p => "- " ++ p.1 ++ ": " ++ p.2)
                 ++ (if pairs.isEmpty then ["- Research completed with web search capabilities"] else []))
      ∧ (((Attr.val [(⟨some "T", some "U"⟩ : CitationObj)]).hasattr
            && (Attr.val [(⟨some "T", some "U"⟩ : CitationObj)]).truthy) = false →
          pairs = (((Attr.absent : Attr (List AnnotationObj)).orEmpty).filter
                     (fun a => a.type == some "url_citation")).map
                  (fun a => (a.title.getD "Source", a.url.getD ""))) :=
  citation_extraction_total ⟨Attr.val [⟨some "T", some "U"⟩], ⟨"b", Attr.absent⟩⟩
    (by unfold WellFormedCitations Attr.orEmpty; decide)

/-- C9: in the top-level citation branch, entries without a `url` attribute
are silently dropped, and the title of a kept entry is read directly: when
every kept entry has a title the output pairs them as read, and a kept entry
with no title raises instead of receiving a placeholder. -/
theorem top_branch_drops_urlless (cs : List CitationObj) (ct : ContentObj) (hne : cs ≠ []) :
    ((∀ c ∈ cs, c.url.isSome → c.title.isSome) →
      extract_citations ⟨Attr.val cs, ct⟩
        = .ok ((cs.filter (fun c => c.url.isSome)).map (fun c => (c.title.getD "", c.url.getD ""))))
    ∧ (∀ c ∈ cs, c.url.isSome → c.title = none →
        ∃ e, extract_citations ⟨Attr.val cs, ct⟩ = .error e) := by
  have hemp : cs.isEmpty = false := by
    rw [Bool.eq_false_iff]
    intro hcontra
    exact hne (List.isEmpty_iff.mp hcontra)
  constructor
  · intro h
    have hall : ∀ c ∈ cs.filter (fun c => c.url.isSome), c.title.isSome ∧ c.url.isSome := by
      intro c hcf
      have hm := List.mem_filter.mp hcf
      exact ⟨h c hm.1 hm.2, hm.2⟩
    exact (extract_top cs ct hemp).trans (mapTop_ok _ hall)
  · intro c hmem hurl hnone
    obtain ⟨e, he⟩ := mapTop_error (cs.filter (fun c => c.url.isSome)) c
      (List.mem_filter.mpr ⟨hmem, hurl⟩) hnone
    exact ⟨e, (extract_top cs ct hemp).trans he⟩

/-- Witness for C9: one entry with a url and title is kept as read, the
url-less entry is dropped, and on a variant whose url-bearing entry lacks a
title the branch raises. -/
theorem top_branch_drops_urlless_witness :
    extract_citations ⟨Attr.val [⟨some "T", some "U"⟩, ⟨some "X", none⟩], ⟨"b", Attr.absent⟩⟩
        = .ok [("T", "U")]
    ∧ ∃ e, extract_citations ⟨Attr.val [⟨none, some "U"⟩], ⟨"b", Attr.absent⟩⟩ = .error e := by
  constructor
  · have h := (top_branch_drops_urlless [⟨some "T", some "U"⟩, ⟨some "X", none⟩]
      ⟨"b", Attr.absent⟩ (by decide)).1 (by decide)
    rw [h]
    rfl
  · exact (top_branch_drops_urlless [⟨none, some "U"⟩] ⟨"b", Attr.absent⟩ (by decide)).2
      ⟨none, some "U"⟩ (List.mem_cons_self _ _) (by decide) rfl

/-- C10: a top-level citations list that is present but empty, or present
but `None`, behaves exactly like an absent one: extraction falls through to
the nested-annotation fallback branch rather than returning an empty list
from the first branch. -/
theorem empty_citations_fall_through (ct : ContentObj) :
    (extract_citations ⟨Attr.val [], ct⟩ = extract_citations ⟨Attr.absent, ct⟩)
    ∧ (extract_citations ⟨Attr.pyNone, ct⟩ = extract_citations ⟨Attr.absent, ct⟩)
    ∧ (ct.anns.hasattr = true →
        extract_citations ⟨Attr.val [], ct⟩
          = .ok ((((ct.anns).orEmpty).filter (fun a => a.type == some "url_citation")).map
                 (fun a => (a.title.getD "Source", a.url.getD "")))) :=
  ⟨(extract_fallback (Attr.val []) ct rfl).trans (extract_fallback Attr.absent ct rfl).symm,
   (extract_fallback Attr.pyNone ct rfl).trans (extract_fallback Attr.absent ct rfl).symm,
   fun _ => extract_fallback (Attr.val []) ct rfl⟩

/-- Witness for C10 on a concrete annotation list: the fallback branch is
reached from an empty top-level list and produces the annotation pair. -/
theorem empty_citations_fall_through_witness :
    extract_citations ⟨Attr.val [], ⟨"b", Attr.val [⟨some "url_citation", some "t", some "u"⟩]⟩⟩
      = .ok [("t", "u")] := by
  have h := (empty_citations_fall_through
    ⟨"b", Attr.val [⟨some "url_citation", some "t", some "u"⟩]⟩).2.2 rfl
  rw [h]
  rfl

lemma filterMap_ite {α β : Type} (p : α → Prop) [DecidablePred p] (g : α → β) (l : List α) :
    (l.filterMap (fun x => if p x then none else some (g x)))
      = (l.filter (fun x => !decide (p x))).map g := by
  induction l with
  | nil => rfl
  | cons x xs ih => by_cases h : p x <;> simp [h, ih]

/-- C2: with N questions of which exactly K get non-empty stripped answers,
the recorded pairs are exactly the `question: answer` lines of the answered
questions in original order (so there are exactly K of them and skipped
questions are omitted); with K ≥ 1 the enriched query is the original query,
the literal separator, and the newline-joined pairs, and with K = 0 it is
the original query verbatim. -/
theorem enrich_query_spec (q : String) (qs as : List String) (h : as.length = qs.length) :
    collect_answers qs as
      = ((qs.zip as).filter (fun qa => !decide (py_strip qa.2 = ""))).map
          (fun qa => qa.1 ++ ": " ++ py_strip qa.2)
    ∧ (collect_answers qs as).length
        = ((qs.zip as).filter (fun qa => !decide (py_strip qa.2 = ""))).length
    ∧ (0 < ((qs.zip as).filter (fun qa => !decide (py_strip qa.2 = ""))).length →
        enrich_query q qs as
          = q ++ "\n\nContext:\n" ++ String.intercalate "\n" (collect_answers qs as))
    ∧ (((qs.zip as).filter (fun qa => !decide (py_strip qa.2 = ""))).length = 0 →
        enrich_query q qs as = q) := by
  have h1 : collect_answers qs as
      = ((qs.zip as).filter (fun qa => !decide (py_strip qa.2 = ""))).map
          (fun qa => qa.1 ++ ": " ++ py_strip qa.2) :=
    filterMap_ite _ _ _
  have h2 : (collect_answers qs as).length
      = ((qs.zip as).filter (fun qa => !decide (py_strip qa.2 = ""))).length := by
    rw [h1, List.length_map]
  refine ⟨h1, h2, ?_, ?_⟩
  · intro hpos
    have hqs : qs.isEmpty = false := by
      rw [Bool.eq_false_iff]
      intro hqe
      rw [List.isEmpty_iff.mp hqe] at hpos
      simp at hpos
    have hca : (collect_answers qs as).isEmpty = false := by
      rw [Bool.eq_false_iff]
      intro hce
      rw [List.isEmpty_iff.mp hce] at h2
      simp at h2
      omega
    unfold enrich_query
    simp [hqs, hca]
  · intro hzero
    unfold enrich_query
    by_cases hqs : qs.isEmpty
    · simp [hqs]
    · have hca : (collect_answers qs as).isEmpty = true := by
        rw [List.isEmpty_iff, List.length_eq_zero.symm]
        omega
      simp [hqs, hca]

/-- Witness for C2 on two questions with one answered: the context block is
appended with exactly one recorded pair. -/
theorem enrich_query_spec_witness :
    enrich_query "topic" ["A?", "B?"] ["x", " "]
      = "topic" ++ "\n\nContext:\n" ++ String.intercalate "\n" (collect_answers ["A?", "B?"] ["x", " "])
    ∧ (collect_answers ["A?", "B?"] ["x", " "]).length
        = (((["A?", "B?"] : List String).zip ["x", " "]).filter
            (fun qa => !decide (py_strip qa.2 = ""))).length := by
  have h := enrich_query_spec "topic" ["A?", "B?"] ["x", " "] rfl
  exact ⟨h.2.2.1 (by decide), h.2.1⟩

lemma clarify_call_mem (b : Backend) (as : List String) (q : String) :
    Event.call "clarify" q ∈ (handle_clarification b as q).1 := by
  unfold handle_clarification
  cases hcr : b.clarify q with
  | error e => simp
  | ok cr => by_cases hq : cr.questions.isEmpty <;> simp [hq]

/-- C3: the Triage to Clarify transition is taken exactly when the triage
verdict is true: on a false verdict the clarify agent is never called and
the instruction agent receives the original query verbatim; on a true
verdict the clarify agent is called on the query. -/
theorem triage_branching (b : Backend) (as : List String) (q : String) (t : TriageResponse)
    (h : b.triage q = .ok t) :
    (t.needs_clarification = false →
       (∀ s, Event.call "clarify" s ∉ (research_pipeline b as q).1)
       ∧ Event.call "instruction" q ∈ (research_pipeline b as q).1)
    ∧ (t.needs_clarification = true →
       Event.call "clarify" q ∈ (research_pipeline b as q).1) := by
  constructor
  · intro hf
    unfold research_pipeline
    rw [h]
    constructor
    · intro s
      cases hi : b.instruction q with
      | error e => simp [hf, hi]
      | ok ir => cases hr : b.research ir.instructions <;> simp [hf, hi, hr]
    · cases hi : b.instruction q with
      | error e => simp [hf, hi]
      | ok ir => cases hr : b.research ir.instructions <;> simp [hf, hi, hr]
  · intro ht
    unfold research_pipeline
    rw [h]
    have hmem := clarify_call_mem b as q
    cases hs : (handle_clarification b as q).2 with
    | error e => simp [ht, hs, hmem]
    | ok q2 =>
      cases hi : b.instruction q2 with
      | error e => simp [ht, hs, hi, hmem]
      | ok ir => cases hr : b.research ir.instructions <;> simp [ht, hs, hi, hr, hmem]

/-- Witness for C3 on concrete backends: one with a false verdict (no
clarify call, instruction sees the query) and one with a true verdict
(clarify called on the query). -/
theorem triage_branching_witness :
    ((∀ s, Event.call "clarify" s ∉ (research_pipeline stub_backend [] "q").1)
      ∧ Event.call "instruction" "q" ∈ (research_pipeline stub_backend [] "q").1)
    ∧ Event.call "clarify" "q" ∈ (research_pipeline stub_backend_clarify ["ans"] "q").1 := by
  have h1 := triage_branching stub_backend [] "q" ⟨false⟩ rfl
  have h2 := triage_branching stub_backend_clarify ["ans"] "q" ⟨true⟩ rfl
  exact ⟨h1.1 rfl, h2.2 rfl⟩

lemma file_writes_append (l1 l2 : List Event) :
    file_writes (l1 ++ l2) = file_writes l1 ++ file_writes l2 := by
  simp [file_writes, List.filter_append]

lemma file_writes_print (ls : List String) : file_writes (ls.map Event.print) = [] := by
  induction ls with
  | nil => rfl
  | cons s rest ih => simpa [file_writes, List.filter] using ih

lemma file_writes_question_events (i : Nat) (l : List (String × String)) :
    file_writes (question_events i l) = [] := by
  induction l generalizing i with
  | nil => rfl
  | cons qa rest ih =>
    obtain ⟨qq, aa⟩ := qa
    have htl := ih (i + 1)
    by_cases h : py_strip aa = "" <;>
      simpa [question_events, file_writes, List.filter_append, List.filter, h] using htl

lemma file_writes_clarification (b : Backend) (as : List String) (q : String) :
    file_writes (handle_clarification b as q).1 = [] := by
  unfold handle_clarification
  cases hcr : b.clarify q with
  | error e => rfl
  | ok cr =>
    by_cases hq : cr.questions.isEmpty
    · simp [hq, file_writes]
    · have hqe := file_writes_question_events 1 (cr.questions.zip as)
      simpa [hq, file_writes, List.filter_append, List.filter] using hqe

lemma file_writes_pipeline (b : Backend) (as : List String) (q : String) :
    file_writes (research_pipeline b as q).1 = [] := by
  unfold research_pipeline
  cases ht : b.triage q with
  | error e => rfl
  | ok t =>
    cases hnc : t.needs_clarification
    case false =>
      cases hi : b.instruction q with
      | error e => simp [hnc, hi, file_writes, List.filter]
      | ok ir =>
        cases hr : b.research ir.instructions <;>
          simp [hnc, hi, hr, file_writes, List.filter]
    case true =>
      have hcl := file_writes_clarification b as q
      cases hs : (handle_clarification b as q).2 with
      | error e =>
        simpa [hnc, hs, file_writes, List.filter, List.filter_append] using hcl
      | ok q2 =>
        cases hi : b.instruction q2 with
        | error e =>
          simpa [hnc, hs, hi, file_writes, List.filter, List.filter_append] using hcl
        | ok ir =>
          cases hr : b.research ir.instructions <;>
            simpa [hnc, hs, hi, hr, file_writes, List.filter, List.filter_append] using hcl

lemma file_writes_banner : file_writes banner_events = [] := rfl

lemma main_events_ok_shape (b : Backend) (fs : String → String → Except String Unit)
    (qIn : String) (as : List String) (sIn now : String) (r : ResearchResult)
    (citLines : List String)
    (hq : py_strip qIn ≠ "")
    (hr : (research_pipeline b as (py_strip qIn)).2 = .ok r)
    (hc : show_citations r = .ok citLines) :
    main_events b fs qIn as sIn now
      = banner_events ++ (research_pipeline b as (py_strip qIn)).1
        ++ [Event.print ("\n" ++ sep50), Event.print "📋 RESULTS", Event.print sep50,
            Event.print r.content.text, Event.print sep50]
        ++ citLines.map Event.print
        ++ [Event.print "\n💾 Save to file? (Y/n): "]
        ++ (if py_lower (py_strip sIn) ≠ "n" then
              match fs (report_filename now) (report_content (py_strip qIn) r) with
              | .error e => [Event.mkdir "reports",
                             Event.write (report_filename now) (report_content (py_strip qIn) r),
                             Event.print ("❌ Error: " ++ e)]
              | .ok _ => [Event.mkdir "reports",
                          Event.write (report_filename now) (report_content (py_strip qIn) r),
                          Event.print ("✅ Saved to " ++ report_filename now)]
            else []) := by
  have hie := isEmpty_false_of_ne _ hq
  unfold main_events
  simp only [hie, Bool.false_eq_true, if_false, hr, hc]

/-- C5: an empty or whitespace-only query terminates the run silently: the
trace is exactly the banner and prompt, with no backend call, no results
printed, no directory creation and no file write. -/
theorem empty_query_exit (b : Backend) (fs : String → String → Except String Unit)
    (qIn : String) (as : List String) (sIn now : String)
    (h : py_strip qIn = "") :
    main_events b fs qIn as sIn now = banner_events
    ∧ (∀ a i, Event.call a i ∉ main_events b fs qIn as sIn now)
    ∧ (∀ p c, Event.write p c ∉ main_events b fs qIn as sIn now)
    ∧ (∀ d, Event.mkdir d ∉ main_events b fs qIn as sIn now) := by
  have hmain : main_events b fs qIn as sIn now = banner_events := by
    unfold main_events
    have hie : ("" : String).isEmpty = true := rfl
    simp [h, hie]
  refine ⟨hmain, ?_, ?_, ?_⟩
  · intro a i
    rw [hmain]
    simp [banner_events]
  · intro p c
    rw [hmain]
    simp [banner_events]
  · intro d
    rw [hmain]
    simp [banner_events]

/-- Witness for C5 on a whitespace-only query. -/
theorem empty_query_exit_witness :
    main_events stub_backend fs_ok "   " [] "" "ts" = banner_events
    ∧ Event.call "triage" "" ∉ main_events stub_backend fs_ok "   " [] "" "ts" := by
  have h := empty_query_exit stub_backend fs_ok "   " [] "" "ts" rfl
  exact ⟨h.1, h.2.1 "triage" ""⟩

/-- C6: a failure in any pipeline stage propagates unmodified to the
top-level driver, which alone catches it: the run's trace ends with the
single generic error line carrying the stage's own message, and no report
file is written.  The last two conjuncts show the stage-to-driver
propagation for the triage and research stages themselves. -/
theorem stage_failure_propagates (b : Backend) (fs : String → String → Except String Unit)
    (qIn : String) (as : List String) (sIn now e : String)
    (hq : py_strip qIn ≠ "")
    (he : (research_pipeline b as (py_strip qIn)).2 = .error e) :
    main_events b fs qIn as sIn now
      = banner_events ++ (research_pipeline b as (py_strip qIn)).1
        ++ [Event.print ("❌ Error: " ++ e)]
    ∧ file_writes (main_events b fs qIn as sIn now) = []
    ∧ (∀ e', b.triage (py_strip qIn) = .error e' →
        (research_pipeline b as (py_strip qIn)).2 = .error e')
    ∧ (∀ e' t ir, b.triage (py_strip qIn) = .ok t → t.needs_clarification = false →
        b.instruction (py_strip qIn) = .ok ir → b.research ir.instructions = .error e' →
        (research_pipeline b as (py_strip qIn)).2 = .error e') := by
  have hie := isEmpty_false_of_ne _ hq
  have hmain : main_events b fs qIn as sIn now
      = banner_events ++ (research_pipeline b as (py_strip qIn)).1
        ++ [Event.print ("❌ Error: " ++ e)] := by
    unfold main_events
    simp only [hie, Bool.false_eq_true, if_false, he]
  refine ⟨hmain, ?_, ?_, ?_⟩
  · rw [hmain, file_writes_append, file_writes_append, file_writes_banner,
        file_writes_pipeline]
    rfl
  · intro e' ht
    unfold research_pipeline
    rw [ht]
  · intro e' t ir ht hnc hi hr
    unfold research_pipeline
    rw [ht]
    simp [hnc, hi, hr]

/-- Witness for C6 on a backend whose research stage fails. -/
theorem stage_failure_propagates_witness :
    main_events stub_backend_fail fs_ok "q" [] "" "ts"
      = banner_events ++ (research_pipeline stub_backend_fail [] (py_strip "q")).1
        ++ [Event.print ("❌ Error: " ++ "boom")]
    ∧ file_writes (main_events stub_backend_fail fs_ok "q" [] "" "ts") = [] := by
  have h := stage_failure_propagates stub_backend_fail fs_ok "q" [] "" "ts" "boom"
    (by decide) rfl
  exact ⟨h.1, h.2.1⟩

/-- C4 counterexample: the input `"n "` is neither `"n"` nor `"N"`, yet on a
fully successful run it causes no file to be written, refuting the claim
that every input other than `"n"`/`"N"` triggers a save. -/
theorem save_prompt_counterexample :
    "n " ≠ "n" ∧ "n " ≠ "N"
    ∧ file_writes (main_events stub_backend fs_ok "q" [] "n " "20250101_0000") = [] := by
  refine ⟨by decide, by decide, ?_⟩
  rfl

/-- C4 (amended): the save decision is taken on the stripped, lowercased
input: if that normal form is `"n"` no file is written; otherwise (in
particular for empty input) exactly the report file is written. -/
theorem save_prompt_amended (b : Backend) (fs : String → String → Except String Unit)
    (qIn : String) (as : List String) (sIn now : String) (r : ResearchResult)
    (citLines : List String)
    (hq : py_strip qIn ≠ "")
    (hr : (research_pipeline b as (py_strip qIn)).2 = .ok r)
    (hc : show_citations r = .ok citLines)
    (hfs : ∀ p c, fs p c = .ok ()) :
    (py_lower (py_strip sIn) = "n" →
      file_writes (main_events b fs qIn as sIn now) = [])
    ∧ (py_lower (py_strip sIn) ≠ "n" →
      file_writes (main_events b fs qIn as sIn now)
        = [Event.write (report_filename now) (report_content (py_strip qIn) r)]) := by
  have hshape := main_events_ok_shape b fs qIn as sIn now r citLines hq hr hc
  constructor
  · intro hn
    rw [hshape]
    simp only [hn, ne_eq, not_true_eq_false, if_false, List.append_nil]
    rw [file_writes_append, file_writes_append, file_writes_append, file_writes_append,
        file_writes_banner, file_writes_pipeline, file_writes_print]
    rfl
  · intro hn
    rw [hshape, if_pos hn, hfs]
    rw [file_writes_append, file_writes_append, file_writes_append, file_writes_append,
        file_writes_append, file_writes_banner, file_writes_pipeline, file_writes_print]
    rfl

/-- Witness for C4 (amended): empty save input writes the report; input
`" N "` does not. -/
theorem save_prompt_amended_witness :
    file_writes (main_events stub_backend fs_ok "q" [] "" "20250101_0000")
      = [Event.write (report_filename "20250101_0000")
          (report_content (py_strip "q") stub_result)]
    ∧ file_writes (main_events stub_backend fs_ok "q" [] " N " "20250101_0000") = [] := by
  have h1 := save_prompt_amended stub_backend fs_ok "q" [] "" "20250101_0000" stub_result
    ["\n📖 SOURCES (0 found):", "- Research completed with web search capabilities"]
    (by decide) rfl rfl (fun _ _ => rfl)
  have h2 := save_prompt_amended stub_backend fs_ok "q" [] " N " "20250101_0000" stub_result
    ["\n📖 SOURCES (0 found):", "- Research completed with web search capabilities"]
    (by decide) rfl rfl (fun _ _ => rfl)
  exact ⟨h1.2 (by decide), h2.1 (by decide)⟩

/-- C7: on a confirmed save, exactly one file is written, at path
`reports/report_<timestamp>.md` for the minute-resolution `strftime`
timestamp, containing the results header, the original pre-clarification
query and the report body; the `reports` directory is created; and two
times agreeing up to the minute yield the same filename (so a same-minute
collision silently overwrites). -/
theorem report_file_layout (b : Backend) (fs : String → String → Except String Unit)
    (qIn : String) (as : List String) (sIn : String) (t : DateTime)
    (r : ResearchResult) (citLines : List String)
    (hq : py_strip qIn ≠ "")
    (hr : (research_pipeline b as (py_strip qIn)).2 = .ok r)
    (hc : show_citations r = .ok citLines)
    (hsave : py_lower (py_strip sIn) ≠ "n")
    (hfs : ∀ p c, fs p c = .ok ()) :
    file_writes (main_events b fs qIn as sIn (strftime_ymd_hm t))
      = [Event.write ("reports/report_" ++ strftime_ymd_hm t ++ ".md")
          ("# Research Results\n\n**Query:** " ++ py_strip qIn ++ "\n\n" ++ r.content.text)]
    ∧ Event.mkdir "reports" ∈ main_events b fs qIn as sIn (strftime_ymd_hm t)
    ∧ (∀ t' : DateTime, t'.year = t.year → t'.month = t.month → t'.day = t.day →
        t'.hour = t.hour → t'.minute = t.minute →
        strftime_ymd_hm t' = strftime_ymd_hm t) := by
  have hshape := main_events_ok_shape b fs qIn as sIn (strftime_ymd_hm t) r citLines hq hr hc
  refine ⟨?_, ?_, ?_⟩
  · rw [hshape, if_pos hsave, hfs]
    rw [file_writes_append, file_writes_append, file_writes_append, file_writes_append,
        file_writes_append, file_writes_banner, file_writes_pipeline, file_writes_print]
    rfl
  · rw [hshape, if_pos hsave, hfs]
    simp
  · intro t' hy hm hd hh hmin
    unfold strftime_ymd_hm
    rw [hy, hm, hd, hh, hmin]

/-- Witness for C7 on a concrete run and timestamp, including a same-minute
collision producing the same filename. -/
theorem report_file_layout_witness :
    file_writes (main_events stub_backend fs_ok "q" [] "y" (strftime_ymd_hm ⟨2025, 1, 2, 3, 4, 5⟩))
      = [Event.write ("reports/report_" ++ strftime_ymd_hm ⟨2025, 1, 2, 3, 4, 5⟩ ++ ".md")
          ("# Research Results\n\n**Query:** " ++ py_strip "q" ++ "\n\n" ++ stub_result.content.text)]
    ∧ Event.mkdir "reports" ∈ main_events stub_backend fs_ok "q" [] "y" (strftime_ymd_hm ⟨2025, 1, 2, 3, 4, 5⟩)
    ∧ strftime_ymd_hm ⟨2025, 1, 2, 3, 4, 59⟩ = strftime_ymd_hm ⟨2025, 1, 2, 3, 4, 5⟩ := by
  have h := report_file_layout stub_backend fs_ok "q" [] "y" ⟨2025, 1, 2, 3, 4, 5⟩ stub_result
    ["\n📖 SOURCES (0 found):", "- Research completed with web search capabilities"]
    (by decide) rfl rfl (by decide) (fun _ _ => rfl)
  exact ⟨h.1, h.2.1, h.2.2 ⟨2025, 1, 2, 3, 4, 59⟩ rfl rfl rfl rfl rfl⟩

/-- C8: in a successful run the results block and report body are displayed
before any write is attempted; when the filesystem then fails the save, the
write attempt sits after a write-free display prefix and the failure
propagates to the top-level handler, which appends the generic error
line. -/
theorem display_precedes_save (b : Backend) (fs : String → String → Except String Unit)
    (qIn : String) (as : List String) (sIn now : String) (r : ResearchResult)
    (citLines : List String) (e : String)
    (hq : py_strip qIn ≠ "")
    (hr : (research_pipeline b as (py_strip qIn)).2 = .ok r)
    (hc : show_citations r = .ok citLines)
    (hsave : py_lower (py_strip sIn) ≠ "n")
    (hfs : fs (report_filename now) (report_content (py_strip qIn) r) = .error e) :
    ∃ pre, main_events b fs qIn as sIn now
        = pre ++ [Event.mkdir "reports",
                  Event.write (report_filename now) (report_content (py_strip qIn) r),
                  Event.print ("❌ Error: " ++ e)]
      ∧ Event.print "📋 RESULTS" ∈ pre
      ∧ Event.print r.content.text ∈ pre
      ∧ file_writes pre = [] := by
  have hshape := main_events_ok_shape b fs qIn as sIn now r citLines hq hr hc
  refine ⟨banner_events ++ (research_pipeline b as (py_strip qIn)).1
        ++ [Event.print ("\n" ++ sep50), Event.print "📋 RESULTS", Event.print sep50,
            Event.print r.content.text, Event.print sep50]
        ++ citLines.map Event.print
        ++ [Event.print "\n💾 Save to file? (Y/n): "], ?_, ?_, ?_, ?_⟩
  · rw [hshape, if_pos hsave, hfs]
  · simp
  · simp
  · rw [file_writes_append, file_writes_append, file_writes_append, file_writes_append,
        file_writes_banner, file_writes_pipeline, file_writes_print]
    rfl

/-- Witness for C8 on a concrete run whose filesystem rejects the write. -/
theorem display_precedes_save_witness :
    ∃ pre, main_events stub_backend fs_fail "q" [] "" "ts"
        = pre ++ [Event.mkdir "reports",
                  Event.write (report_filename "ts") (report_content (py_strip "q") stub_result),
                  Event.print ("❌ Error: " ++ "disk full")]
      ∧ Event.print "📋 RESULTS" ∈ pre
      ∧ Event.print stub_result.content.text ∈ pre
      ∧ file_writes pre = [] :=
  display_precedes_save stub_backend fs_fail "q" [] "" "ts" stub_result
    ["\n📖 SOURCES (0 found):", "- Research completed with web search capabilities"]
    "disk full" (by decide) rfl rfl (by decide) rfl
